import Mathlib

/-!
Verification of the letter-template editor ("pdftoblade").

This file gives a shallow embedding, in Lean 4, of the parts of the
program that the specification talks about, and proves (or refutes) the
spec's claims against that embedding.

Modelling conventions:
* TypeScript strings are Lean `String`s; character-level scanning is done
  on `List Char` (the `String.data` view).
* JavaScript numbers are modelled as exact rationals (`ℚ`).  `toFixed(d)`
  is modelled as rounding to the nearest multiple of `10⁻ᵈ`, half away
  from zero for positive inputs, which is what `Number.prototype.toFixed`
  does on the values exercised here (no binary-float artefacts arise at
  the magnitudes the claims mention).
* The regex `\{\{\s*\$KEY\s*\}\}` used by the preview substitution engine
  is modelled by a literal left-to-right scanner; this is extensionally
  the regex's behaviour whenever `KEY` contains no regex metacharacters,
  which the registry invariant (`key` matches `[A-Za-z0-9_]+`) ensures.
  The replacement text is spliced literally.
* Template-literal interpolation `${x}` is modelled by string
  concatenation; `undefined` fields interpolate as the text "undefined"
  in template literals and as the empty string in JSX children, exactly
  as on the host platform.
* DOM calls (`surroundContents`, `execCommand`, focus state) are modelled
  by explicit success/failure parameters, since their outcome is decided
  by the platform, not by this program.
-/

/-! ## Data model (src/types.ts) -/

/-- `Unit` from types.ts: `'mm' | 'cm' | 'in'` (named `LenUnit` here since
`Unit` is taken by Lean). -/
inductive LenUnit where
  | mm
  | cm
  | inch
deriving DecidableEq, Repr

/-- `PageSizePreset` from types.ts. -/
inductive PageSizePreset where
  | A4
  | Letter
  | Legal
  | F4
  | Custom
deriving DecidableEq, Repr

/-- Ruler style of a header line (types.ts `HeaderLine.style`). -/
inductive LineStyle where
  | solid
  | double
  | dashed
  | dotted
deriving DecidableEq, Repr

/-- Signature type (types.ts `Signature.type`). -/
inductive SigType where
  | wet
  | qr
deriving DecidableEq, Repr

/-- Signature alignment (types.ts `Signature.align`). -/
inductive SigAlign where
  | left
  | center
  | right
deriving DecidableEq, Repr

/-- `Variable` from types.ts. -/
structure Variable where
  id : String
  key : String
  label : String
  defaultValue : String
deriving DecidableEq, Repr

/-- `HeaderLine` from types.ts. -/
structure HeaderLine where
  id : String
  width : ℚ
  style : LineStyle
  color : String
  marginTop : ℚ
  marginBottom : ℚ
deriving DecidableEq, Repr

/-- `Signature` from types.ts; `label` and `align` are optional there. -/
structure Signature where
  id : String
  name : String
  title : String
  type : SigType
  label : Option String
  align : Option SigAlign
deriving DecidableEq, Repr

/-- `LetterSettings` from types.ts, the aggregate settings record. -/
structure LetterSettings where
  pageSize : PageSizePreset
  unit : LenUnit
  pageWidth : ℚ
  pageHeight : ℚ
  marginTop : ℚ
  marginRight : ℚ
  marginBottom : ℚ
  marginLeft : ℚ
  globalFontFamily : String
  headerFontFamily : String
  contentFontFamily : String
  attachmentFontFamily : String
  fontSize : ℚ
  showKop : Bool
  headerContent : String
  headerLines : List HeaderLine
  logoUrl : String
  logoAspectRatio : String
  rawHtmlContent : String
  showFooter : Bool
  footerContent : String
  hasAttachment : Bool
  attachmentShowKop : Bool
  attachmentContent : String
  «variables» : List Variable
  showSignature : Bool
  signatureCity : String
  signatures : List Signature
deriving DecidableEq, Repr

/-! ## Unit conversion (src/components/EditorPanel.tsx, `convertValue` and
`handleUnitChange`) -/

/-- JS `x.toFixed(d)` (then `parseFloat`) on a rational: round to the
nearest multiple of `10⁻ᵈ`, ties toward the larger value, as the
ECMAScript `toFixed` tie rule prescribes. -/
def toFixedQ (d : Nat) (q : ℚ) : ℚ :=
  (⌊q * (10 : ℚ) ^ d + 1 / 2⌋ : ℚ) / (10 : ℚ) ^ d

/-- `convertValue` (EditorPanel.tsx lines 31-40): convert a geometry value
between units via millimeters, rounding to 2 decimals for mm/cm and 3 for
inches. -/
def convertValue (val : ℚ) (fromU toU : LenUnit) : ℚ :=
  let mm : ℚ :=
    match fromU with
    | .mm => val
    | .cm => val * 10
    | .inch => val * (254 / 10)
  match toU with
  | .mm => toFixedQ 2 mm
  | .cm => toFixedQ 2 (mm / 10)
  | .inch => toFixedQ 3 (mm / (254 / 10))

/-- `handleUnitChange` (EditorPanel.tsx lines 42-56): no-op when the unit
is unchanged, otherwise convert the six geometry fields and set the unit. -/
def handleUnitChange (s : LetterSettings) (newUnit : LenUnit) : LetterSettings :=
  if s.unit = newUnit then s
  else
    { s with
      unit := newUnit
      pageWidth := convertValue s.pageWidth s.unit newUnit
      pageHeight := convertValue s.pageHeight s.unit newUnit
      marginTop := convertValue s.marginTop s.unit newUnit
      marginBottom := convertValue s.marginBottom s.unit newUnit
      marginLeft := convertValue s.marginLeft s.unit newUnit
      marginRight := convertValue s.marginRight s.unit newUnit }

/-- Millimeters per unit: the common base of `convertValue`. -/
def mmPer : LenUnit → ℚ
  | .mm => 1
  | .cm => 10
  | .inch => 254 / 10

/-- Decimal places `convertValue` keeps per target unit. -/
def decimalsOf : LenUnit → Nat
  | .mm => 2
  | .cm => 2
  | .inch => 3

/-- One round trip of a geometry value through another unit and back. -/
def roundTrip (u v : LenUnit) (x : ℚ) : ℚ :=
  convertValue (convertValue x u v) v u

example : convertValue 4 .cm .inch = 1575 / 1000 := by
  norm_num [convertValue, toFixedQ]
example : convertValue (1575 / 1000) .inch .cm = 4 := by
  norm_num [convertValue, toFixedQ]
example : roundTrip .mm .inch 4 = 399 / 100 := by
  norm_num [roundTrip, convertValue, toFixedQ]
example : roundTrip .mm .inch (399 / 100) = 399 / 100 := by
  norm_num [roundTrip, convertValue, toFixedQ]

/-! ## Variable substitution engine
(src/unnamed/part_001, `replaceVariables`, lines 101-108)

The preview engine runs, for each registered variable, the global regex
`\{\{\s*\$KEY\s*\}\}` over the markup and replaces every match with a
highlighted stand-in span.  The scanner below is that regex for keys
without metacharacters: at each position it tries to match two opening
braces, optional whitespace, a dollar, the literal key, optional
whitespace and two closing braces; on a match it emits the replacement
and resumes after the match, otherwise it keeps the character. -/

/-- The character class of JavaScript's `\s`. -/
def jsWs (c : Char) : Bool :=
  c = ' ' || c = '\t' || c = '\n' || c.val = 11 || c.val = 12 || c = '\r' ||
  c.val = 0xa0 || c.val = 0x1680 || (0x2000 ≤ c.val && c.val ≤ 0x200a) ||
  c.val = 0x2028 || c.val = 0x2029 || c.val = 0x202f || c.val = 0x205f ||
  c.val = 0x3000 || c.val = 0xfeff

/-- Match a literal character sequence, returning what follows it. -/
def takeLit : List Char → List Char → Option (List Char)
  | [], s => some s
  | _ :: _, [] => none
  | p :: ps, c :: cs => if p = c then takeLit ps cs else none

/-- Greedily skip `\s*`. -/
def dropWs (s : List Char) : List Char :=
  s.dropWhile jsWs

/-- Demand one specific character at the head of the input. -/
def expectChar (c : Char) : List Char → Option (List Char)
  | x :: rest => if x = c then some rest else none
  | [] => none

/-- Match `\s*\$KEY\s*\}\}` (the part of the token after the opening
braces), returning what follows the token. -/
def matchTokAux (key : List Char) (s : List Char) : Option (List Char) :=
  (expectChar '$' (dropWs s)).bind fun r1 =>
    (takeLit key r1).bind fun r2 =>
      (expectChar '}' (dropWs r2)).bind fun r3 =>
        expectChar '}' r3

/-- Match a whole token `\{\{\s*\$KEY\s*\}\}` at the head of the input. -/
def matchTok (key : List Char) : List Char → Option (List Char)
  | '{' :: '{' :: rest => matchTokAux key rest
  | _ => none

theorem takeLit_length_le {p s r : List Char} (h : takeLit p s = some r) :
    r.length ≤ s.length := by
  induction p generalizing s with
  | nil => simp only [takeLit, Option.some.injEq] at h; simp [h]
  | cons a ps ih =>
    cases s with
    | nil => simp [takeLit] at h
    | cons c cs =>
      simp only [takeLit] at h
      split at h
      · exact le_trans (ih h) (Nat.le_succ _)
      · exact absurd h (by simp)

theorem expectChar_length_lt {c : Char} {s r : List Char}
    (h : expectChar c s = some r) : r.length < s.length := by
  cases s with
  | nil => simp [expectChar] at h
  | cons x rest =>
    simp only [expectChar] at h
    split at h
    · injection h with h; subst h; simp
    · exact absurd h (by simp)

theorem dropWs_length_le (s : List Char) : (dropWs s).length ≤ s.length := by
  unfold dropWs
  induction s with
  | nil => simp
  | cons c cs ih =>
    by_cases h : jsWs c
    · simp only [List.dropWhile_cons, h, if_true]
      exact le_trans ih (Nat.le_succ _)
    · simp [List.dropWhile_cons, h]

theorem matchTokAux_length_le {key s r : List Char}
    (h : matchTokAux key s = some r) : r.length ≤ s.length := by
  unfold matchTokAux at h
  rcases h1 : expectChar '$' (dropWs s) with _ | r1 <;> rw [h1] at h
  · exact absurd h (by simp)
  simp only [Option.some_bind] at h
  rcases h2 : takeLit key r1 with _ | r2 <;> rw [h2] at h
  · exact absurd h (by simp)
  simp only [Option.some_bind] at h
  rcases h3 : expectChar '}' (dropWs r2) with _ | r3 <;> rw [h3] at h
  · exact absurd h (by simp)
  simp only [Option.some_bind] at h
  have l1 := expectChar_length_lt h1
  have l2 := takeLit_length_le h2
  have l3 := expectChar_length_lt h3
  have l4 := expectChar_length_lt h
  have l5 := dropWs_length_le s
  have l6 := dropWs_length_le r2
  omega

theorem matchTok_length_lt {key s r : List Char}
    (h : matchTok key s = some r) : r.length < s.length := by
  unfold matchTok at h
  split at h
  · rename_i rest
    have := matchTokAux_length_le h
    simp only [List.length_cons]
    omega
  · exact absurd h (by simp)

/-- The global-replace scan of `content.replace(regex, repl)`: at every
position try the token; on a match splice in the replacement and resume
after the match, otherwise keep the character and move on.  The fuel
argument only makes the recursion structural (so that the scan computes
by kernel reduction); `matchTok_length_lt` shows the input length is
always enough fuel. -/
def replTokF (key repl : List Char) : Nat → List Char → List Char
  | _, [] => []
  | 0, s => s
  | fuel + 1, c :: rest =>
    match matchTok key (c :: rest) with
    | some r2 => repl ++ replTokF key repl fuel r2
    | none => c :: replTokF key repl fuel rest

/-- The global-replace scan, fuelled by the input length. -/
def replTok (key repl s : List Char) : List Char :=
  replTokF key repl s.length s

theorem replTokF_fuel_irrel {key repl : List Char} :
    ∀ {f1 : Nat} {s : List Char} {f2 : Nat}, s.length ≤ f1 → s.length ≤ f2 →
      replTokF key repl f1 s = replTokF key repl f2 s := by
  intro f1
  induction f1 with
  | zero =>
    intro s f2 h1 _
    have hs : s = [] := List.length_eq_zero.mp (Nat.le_zero.mp h1)
    subst hs
    cases f2 <;> rfl
  | succ f ih =>
    intro s f2 h1 h2
    cases s with
    | nil => cases f2 <;> rfl
    | cons c rest =>
      cases f2 with
      | zero => simp at h2
      | succ f2' =>
        cases hm : matchTok key (c :: rest) with
        | some r2 =>
          have hl := matchTok_length_lt hm
          simp only [replTokF, hm]
          simp only [List.length_cons] at h1 h2 hl
          exact congrArg (repl ++ ·) (ih (by omega) (by omega))
        | none =>
          simp only [replTokF, hm]
          simp only [List.length_cons] at h1 h2
          exact congrArg (c :: ·) (ih (by omega) (by omega))

theorem replTok_cons_some {key repl : List Char} {c : Char} {rest r2 : List Char}
    (h : matchTok key (c :: rest) = some r2) :
    replTok key repl (c :: rest) = repl ++ replTok key repl r2 := by
  unfold replTok
  have hl := matchTok_length_lt h
  simp only [List.length_cons] at hl ⊢
  simp only [replTokF, h]
  exact congrArg (repl ++ ·) (replTokF_fuel_irrel (by omega) le_rfl)

theorem replTok_cons_none {key repl : List Char} {c : Char} {rest : List Char}
    (h : matchTok key (c :: rest) = none) :
    replTok key repl (c :: rest) = c :: replTok key repl rest := by
  unfold replTok
  simp only [List.length_cons, replTokF, h]

/-- Does some position of `s` start a token for `key`? -/
def hasTokL (key : List Char) (s : List Char) : Bool :=
  s.tails.any fun t => (matchTok key t).isSome

/-- The highlighted preview stand-in span the engine substitutes for a
token of `v` (part_001 line 105): its visible text is the variable's
default value, or its key when the default value is empty (`||`). -/
def standIn (v : Variable) : String :=
  "<span class=\"bg-yellow-100 text-yellow-800 px-1 rounded border border-yellow-300\" title=\"$"
    ++ v.key ++ "\">"
    ++ (if v.defaultValue = "" then v.key else v.defaultValue)
    ++ "</span>"

/-- String-level wrapper of the scanner. -/
def replTokStr (key repl s : String) : String :=
  String.mk (replTok key.data repl.data s.data)

/-- `replaceVariables` (part_001 lines 101-108): run the per-variable
global replace over the markup, one registered variable after another. -/
def replaceVariables (vars : List Variable) (html : String) : String :=
  vars.foldl (fun content v => replTokStr v.key (standIn v) content) html

/-- A concrete token list: `{{`, whitespace, `$KEY`, whitespace, `}}`. -/
def tokL (ws1 : List Char) (key : String) (ws2 : List Char) : List Char :=
  '{' :: '{' :: ws1 ++ '$' :: key.data ++ ws2 ++ '}' :: '}' :: []

/-- A registry key is well formed when it is a non-empty word
(`[A-Za-z0-9_]+`), the invariant the spec states for the registry. -/
def wfKey (k : String) : Prop :=
  k ≠ "" ∧ k.data.all (fun c => c.isAlphanum || c = '_')

instance : DecidablePred wfKey := fun k => by
  unfold wfKey; infer_instance

theorem dropWs_ws_append {ws rest : List Char} (hws : ws.all jsWs) :
    dropWs (ws ++ rest) = dropWs rest := by
  induction ws with
  | nil => simp
  | cons c cs ih =>
    simp only [List.all_cons, Bool.and_eq_true] at hws
    simp only [List.cons_append, dropWs, List.dropWhile_cons, hws.1, if_true]
    exact ih hws.2

theorem dropWs_not_ws {c : Char} {rest : List Char} (hc : jsWs c = false) :
    dropWs (c :: rest) = c :: rest := by
  simp [dropWs, List.dropWhile_cons, hc]

theorem takeLit_self_append (p rest : List Char) :
    takeLit p (p ++ rest) = some rest := by
  induction p with
  | nil => simp [takeLit]
  | cons c cs ih => simp [takeLit, ih]

theorem jsWs_dollar : jsWs '$' = false := by decide

theorem jsWs_rbrace : jsWs '}' = false := by decide

theorem expectChar_self (c : Char) (rest : List Char) :
    expectChar c (c :: rest) = some rest := by
  simp [expectChar]

/-- At a token occurrence, the scanner consumes exactly the token. -/
theorem matchTok_tokL {ws1 ws2 : List Char} (key : String) (rest : List Char)
    (hws1 : ws1.all jsWs) (hws2 : ws2.all jsWs) :
    matchTok key.data (tokL ws1 key ws2 ++ rest) = some rest := by
  have h1 : dropWs (ws1 ++ '$' :: (key.data ++ (ws2 ++ '}' :: '}' :: rest)))
      = '$' :: (key.data ++ (ws2 ++ '}' :: '}' :: rest)) := by
    rw [dropWs_ws_append hws1, dropWs_not_ws jsWs_dollar]
  have h2 : dropWs (ws2 ++ '}' :: '}' :: rest) = '}' :: '}' :: rest := by
    rw [dropWs_ws_append hws2, dropWs_not_ws jsWs_rbrace]
  simp only [tokL, List.cons_append, List.append_assoc, List.nil_append]
  simp only [matchTok, matchTokAux, h1, expectChar_self, Option.some_bind,
    takeLit_self_append, h2]

/-- Scanning a token occurrence substitutes the replacement and resumes
after it: the equation behind "replace every match". -/
theorem replTok_tokL {ws1 ws2 : List Char} (key : String) (repl rest : List Char)
    (hws1 : ws1.all jsWs) (hws2 : ws2.all jsWs) :
    replTok key.data repl (tokL ws1 key ws2 ++ rest)
      = repl ++ replTok key.data repl rest := by
  have htok := matchTok_tokL key rest hws1 hws2
  have hT : tokL ws1 key ws2 ++ rest
      = '{' :: '{' :: (ws1 ++ '$' :: (key.data ++ (ws2 ++ '}' :: '}' :: rest))) := by
    simp [tokL]
  rw [hT] at htok ⊢
  exact replTok_cons_some htok

theorem hasTokL_cons_false {key : List Char} {c : Char} {rest : List Char}
    (h : hasTokL key (c :: rest) = false) :
    matchTok key (c :: rest) = none ∧ hasTokL key rest = false := by
  unfold hasTokL at h ⊢
  rw [List.tails_cons, List.any_cons] at h
  simp only [Bool.or_eq_false_iff] at h
  refine ⟨?_, h.2⟩
  rcases hm : matchTok key (c :: rest) with _ | r
  · rfl
  · rw [hm] at h
    simp at h

/-- Markup in which no position starts a token for `key` is returned
unchanged by the scan. -/
theorem replTok_no_tok {key repl : List Char} :
    ∀ {s : List Char}, hasTokL key s = false → replTok key repl s = s := by
  intro s
  induction s with
  | nil => intro _; rfl
  | cons c rest ih =>
    intro h
    obtain ⟨hm, hrest⟩ := hasTokL_cons_false h
    rw [replTok_cons_none hm, ih hrest]

/-- String-level occurrence test. -/
def hasTok (key s : String) : Bool :=
  hasTokL key.data s.data

theorem replTokStr_no_tok {key repl s : String} (h : hasTok key s = false) :
    replTokStr key repl s = s := by
  unfold replTokStr
  rw [replTok_no_tok h]

/-- Markup containing no token of any registered variable is left
untouched by the whole preview substitution pass. -/
theorem replaceVariables_no_tok {vars : List Variable} {html : String}
    (h : ∀ v ∈ vars, hasTok v.key html = false) :
    replaceVariables vars html = html := by
  induction vars with
  | nil => rfl
  | cons v vs ih =>
    unfold replaceVariables at ih ⊢
    rw [List.foldl_cons, replTokStr_no_tok (h v (by simp))]
    exact ih fun u hu => h u (by simp [hu])

example : replTokStr "nama" "X" "Dear {{ $nama }}!" = "Dear X!" := by decide
example : replTokStr "nama" "X" "Dear {{$nama}} and {{  $nama  }}" = "Dear X and X" := by decide
example : replTokStr "nama" "X" "Dear {{ $namaX }}" = "Dear {{ $namaX }}" := by decide
example : replTokStr "nama" "X" "{{ $other }}" = "{{ $other }}" := by decide

/-! ## Signature layout rules

Preview side: src/unnamed/part_001, `TemplatePreview`, lines 173-213.
Export side: src/unnamed/part_008, `handleDownloadBlade`, lines 291-330. -/

/-- CSS text of a signature alignment value. -/
def alignStr : SigAlign → String
  | .left => "left"
  | .center => "center"
  | .right => "right"

/-- JS template-literal rendering of a possibly-`undefined` string field. -/
def optStr : Option String → String
  | some s => s
  | none => "undefined"

/-- Preview wrapper class of the signature entry at `idx` out of `total`
(part_001 lines 177-195): single entries span both columns and align per
their own `align` (default right); the last entry of an odd-length list
(when not single) spans both columns centered; all others are plain
centered grid cells. -/
def previewWrapperClass (total idx : Nat) (align : Option SigAlign) : String :=
  let base := "text-center min-w-[200px] text-black "
  if total = 1 then
    base ++ "col-span-2 flex flex-col " ++
      (if align = some SigAlign.left then "items-start text-left"
       else if align = some SigAlign.center then "items-center text-center"
       else "items-end text-center")
  else if total % 2 ≠ 0 ∧ idx = total - 1 then
    base ++ "col-span-2 justify-self-center"
  else
    base ++ "justify-self-center"

/-- One preview signature entry rendered to markup (part_001 lines
197-209); JSX children of an `undefined` label render as nothing. -/
def previewSigEntry (city : String) (total idx : Nat) (sig : Signature) : String :=
  "<div class=\"" ++ previewWrapperClass total idx sig.align ++ "\"><p class=\"mb-1\">"
    ++ sig.label.getD "" ++ "</p>"
    ++ (if idx = total - 1 then
          "<p class=\"mb-2\">" ++ city
            ++ ", <span class=\"bg-yellow-100 px-1\">\x7b\x7b $tanggal \x7d\x7d</span></p>"
        else "")
    ++ "<div class=\"h-20 flex items-center justify-center my-2\">"
    ++ (if sig.type = SigType.wet then "<div class=\"h-full\"></div>"
        else "<div class=\"border border-dashed border-gray-400 p-2 text-[10px] bg-gray-50 flex items-center justify-center w-20 h-20\">QR Placeholder</div>")
    ++ "</div><p class=\"font-bold underline mt-2\">" ++ sig.name ++ "</p><p>"
    ++ sig.title ++ "</p></div>"

/-- Export inline style of the signature block at `idx` out of `total`
(part_008 lines 307-319). -/
def exportBlockStyle (total idx : Nat) : String :=
  if total = 1 then
    "display: inline-block; text-align: center; min-width: 200px; vertical-align: top;"
  else if total % 2 ≠ 0 ∧ idx = total - 1 then
    "width: 100%; clear: both; float: none; display: block; text-align: center; margin-top: 20px;"
  else
    "width: 50%; float: left; text-align: center; margin-bottom: 20px;"

/-- Export style of the signature container (part_008 lines 294-301):
single signatures align the whole container per their `align` (default
right), otherwise floats are cleared. -/
def containerAlignStyle (sigs : List Signature) : String :=
  match sigs with
  | [sig] =>
    "margin-top: 50px; width: 100%; text-align: "
      ++ alignStr (sig.align.getD SigAlign.right) ++ ";"
  | _ => "margin-top: 50px; width: 100%; overflow: hidden;"

/-- One exported signature block (part_008 lines 303-330).  Only the last
block carries the hard-coded date line `<p>Bandung, {{ $tanggal }}</p>`. -/
def sigBlockHtml (total idx : Nat) (sig : Signature) : String :=
  "\n        <div class=\"sig-block\" style=\"" ++ exportBlockStyle total idx
    ++ "\">\n            <p>" ++ optStr sig.label ++ "</p>\n            "
    ++ (if idx = total - 1 then "<p>Bandung, \x7b\x7b $tanggal \x7d\x7d</p>" else "")
    ++ "\n            "
    ++ (if sig.type = SigType.wet then "<div style=\"height: 80px;\"></div>"
        else "<div style=\"height: 80px; text-align:center;\"><img src=\"\x7b\x7b $qr_code_"
          ++ toString idx
          ++ " ?? \x27\x27 \x7d\x7d\" alt=\"QR\" style=\"height:70px; width:70px; display:inline-block;\"></div>")
    ++ "\n            <p style=\"font-weight: bold; text-decoration: underline;\">"
    ++ sig.name ++ "</p>\n            <p>" ++ sig.title ++ "</p>\n        </div>\n    "

/-- `signaturesHtml` (part_008 line 303/330): map each signature to its
block and join with no separator. -/
def signaturesHtml (sigs : List Signature) : String :=
  String.join (sigs.enum.map fun p => sigBlockHtml sigs.length p.1 p.2)

/-! ## Exported Blade document body
(src/unnamed/part_008, `handleDownloadBlade`, lines 332-431) -/

/-- JS `cond ? 'true' : 'false'` used inside `@if(...)`. -/
def jsBool (b : Bool) : String :=
  if b then "true" else "false"

/-- Rendering of a JS number into the template (integral values print with
no decimal point). -/
def qToStr (q : ℚ) : String :=
  if q.den = 1 then toString q.num else toString q

/-- CSS text of a header-line style. -/
def lineStyleStr : LineStyle → String
  | .solid => "solid"
  | .double => "double"
  | .dashed => "dashed"
  | .dotted => "dotted"

/-- One exported header line (part_008 lines 333-341). -/
def headerLineHtml (line : HeaderLine) : String :=
  "\n        <div style=\"\n            border-bottom: " ++ qToStr line.width
    ++ "px " ++ lineStyleStr line.style ++ " " ++ line.color
    ++ "; \n            margin-top: " ++ qToStr line.marginTop
    ++ "px; \n            margin-bottom: " ++ qToStr line.marginBottom
    ++ "px;\n            width: 100%;\n            clear: both;\n        \"></div>\n    "

/-- `headerLinesHtml` (part_008 lines 333-341): all lines joined. -/
def headerLinesHtml (lines : List HeaderLine) : String :=
  String.join (lines.map headerLineHtml)

/-- Footer region of the exported body (part_008 lines 389-393): emitted
first, wrapped in `@if` on the footer flag. -/
def footerSec (s : LetterSettings) : String :=
  "\n    @if(" ++ jsBool s.showFooter ++ ")\n    <div class=\"footer\">\n        "
    ++ s.footerContent ++ "\n    </div>\n    @endif\n"

/-- Header region (part_008 lines 395-403): logo, header fragment and the
header-line stack, wrapped in `@if` on the kop flag. -/
def headerSec (s : LetterSettings) : String :=
  "\n    @if(" ++ jsBool s.showKop
    ++ ")\n    <div class=\"header-container\">\n        <div class=\"header-logo\"><img src=\""
    ++ s.logoUrl ++ "\" alt=\"Logo\"></div>\n        <div class=\"header-content\">"
    ++ s.headerContent
    ++ "</div>\n    </div>\n    <div class=\"header-lines\">\n        "
    ++ headerLinesHtml s.headerLines ++ "\n    </div>\n    @endif\n"

/-- Body-content region (part_008 line 405): the raw content markup is
emitted verbatim, with no variable substitution. -/
def contentSec (s : LetterSettings) : String :=
  "\n    <div class=\"content\">" ++ s.rawHtmlContent ++ "</div>\n"

/-- Signature region (part_008 lines 407-409). -/
def sigSec (s : LetterSettings) : String :=
  "\n    @if(" ++ jsBool s.showSignature
    ++ ")\n    <div class=\"signature-container\" style=\""
    ++ containerAlignStyle s.signatures ++ "\">" ++ signaturesHtml s.signatures
    ++ "</div>\n    @endif\n"

/-- Attachment region (part_008 lines 411-429): page break, optional
repeated header, then the attachment block, wrapped in `@if` on the
attachment flag. -/
def attachSec (s : LetterSettings) : String :=
  "\n    @if(" ++ jsBool s.hasAttachment
    ++ ")\n    <div class=\"page-break\"></div>\n    \n    @if("
    ++ jsBool s.attachmentShowKop
    ++ ")\n    <div class=\"header-container\">\n        <div class=\"header-logo\"><img src=\""
    ++ s.logoUrl ++ "\" alt=\"Logo\"></div>\n        <div class=\"header-content\">"
    ++ s.headerContent
    ++ "</div>\n    </div>\n    <div class=\"header-lines\">\n        "
    ++ headerLinesHtml s.headerLines
    ++ "\n    </div>\n    <br>\n    @endif\n\n    <div class=\"attachment-section\">\n        <h3>Lampiran</h3>\n        "
    ++ s.attachmentContent ++ "\n    </div>\n    @endif\n"

/-- The exported document body: everything `handleDownloadBlade` places
between `<body>` and `</body>` (part_008 lines 388-430), in emission
order: footer, header, content, signatures, attachments. -/
def bladeBody (s : LetterSettings) : String :=
  footerSec s ++ headerSec s ++ contentSec s ++ sigSec s ++ attachSec s

/-! ## Editable surface controller
(src/components/RichTextEditor.tsx, effect at lines 34-47) -/

/-- One run of the fragment-prop effect: given the authoritative fragment
`content`, the surface's live markup `current` and the focus state,
return whether the surface was overwritten and the resulting surface
markup.  Mirrors the nested conditionals of the effect: nothing happens
when the markup already agrees; an unfocused surface is overwritten with
`content`; a focused surface is only cleared, and only when `content` is
empty while the surface is not. -/
def syncSurface (content current : String) (focused : Bool) : Bool × String :=
  if content ≠ current then
    if focused = false then (true, content)
    else if content = "" ∧ current ≠ "" then (true, "")
    else (false, current)
  else (false, current)

/-! ## Formatting command executor, point-size application
(src/components/RichTextEditor.tsx, `applyFontSize`, lines 104-128)

The DOM outcome of `surroundContents` is a platform decision, so it is an
explicit parameter: `surroundFails` says the selected range spans a
structure that cannot be cleanly wrapped (the call throws). -/

/-- What `applyFontSize` ends up doing to the document. -/
inductive FontSizeStep where
  | wrapSelection
  | caretZeroWidth
  | extractWrapReinsert
  | coarseStep
deriving DecidableEq, Repr

/-- The attempted wrap of a non-collapsed range: `surroundContents`
either succeeds or throws. -/
def surroundAttempt (surroundFails : Bool) : Except Unit FontSizeStep :=
  if surroundFails then .error () else .ok .wrapSelection

/-- `applyFontSize` on a selection (lines 107-127): a collapsed range gets
the zero-width-space caret span; otherwise the wrap is attempted and any
exception is caught by the handler that issues the coarse native
`fontSize` step command.  The function is total: no exception escapes. -/
def applyFontSizeOutcome (collapsed surroundFails : Bool) : FontSizeStep :=
  if collapsed then .caretZeroWidth
  else
    match surroundAttempt surroundFails with
    | .ok step => step
    | .error _ => .coarseStep

/-! ## Variable registry insertion
(src/components/EditorPanel.tsx `handleAddVariable` lines 122-132;
src/components/RichTextEditor.tsx `insertVariable` lines 135-141 and
`promptNewVariable` lines 143-149) -/

/-- The fresh variable `handleAddVariable` builds for a new key (`now`
stands for `Date.now()`). -/
def newVariable (now key : String) : Variable :=
  { id := "var-" ++ now
    key := key
    label := key.replace "_" " "
    defaultValue := "[" ++ key ++ "]" }

/-- `handleAddVariable`: register the key only when no existing variable
already carries it (`.find` truthiness), else leave the registry alone. -/
def handleAddVariable (now : String) (vars : List Variable) (key : String) :
    List Variable :=
  match vars.find? (fun v => v.key = key) with
  | some _ => vars
  | none => vars ++ [newVariable now key]

/-- The literal text `insertVariable` types at the caret:
`{{ $KEY }}`. -/
def insertVariableText (key : String) : String :=
  "\x7b\x7b $" ++ key ++ " \x7d\x7d"

/-- A word character in the sense of the strip regex `[^a-zA-Z0-9_]`. -/
def isWordChar (c : Char) : Bool :=
  ('a' ≤ c ∧ c ≤ 'z') ∨ ('A' ≤ c ∧ c ≤ 'Z') ∨ ('0' ≤ c ∧ c ≤ '9') ∨ c = '_'

/-- `name.replace(/[^a-zA-Z0-9_]/g, '')` from `promptNewVariable`. -/
def cleanVarName (name : String) : String :=
  String.mk (name.data.filter isWordChar)

/-- `promptNewVariable` (lines 143-149): `prompt` may be cancelled
(`none`) or return a name; a non-empty name is stripped to its word
characters and inserted/registered.  Returns the key that gets inserted
and registered, if any. -/
def promptNewVariableKey (promptResult : Option String) : Option String :=
  match promptResult with
  | none => none
  | some name => if name = "" then none else some (cleanVarName name)

/-- The key pattern `[A-Za-z0-9_]+` of the spec: non-empty and all word
characters. -/
def matchesKeyPat (s : String) : Bool :=
  s ≠ "" ∧ s.data.all isWordChar

/-! ## Occurrence order inside generated markup (used to settle the
block-order claims about the exported body) -/

/-- Character index of the first occurrence of `needle` in the haystack,
if any. -/
def idxOfAux (needle : List Char) : List Char → Nat → Option Nat
  | [], _ => none
  | c :: cs, i =>
    if needle.isPrefixOf (c :: cs) then some i else idxOfAux needle cs (i + 1)

/-- First-occurrence index of `needle` in `hay`. -/
def idxOf (needle hay : List Char) : Option Nat :=
  idxOfAux needle hay 0

/-- Both strings occur and the first occurrence of `a` is strictly before
the first occurrence of `b`. -/
def occursBefore (a b hay : List Char) : Bool :=
  match idxOf a hay, idxOf b hay with
  | some i, some j => decide (i < j)
  | _, _ => false

/-- Substring test. -/
def occursIn (needle hay : String) : Bool :=
  (idxOf needle.data hay.data).isSome

example : occursIn "col-span-2" (previewWrapperClass 4 1 none) = false := by decide
example : occursIn "col-span-2" (previewWrapperClass 3 2 none) = true := by decide
example : exportBlockStyle 3 2
    = "width: 100%; clear: both; float: none; display: block; text-align: center; margin-top: 20px;" := by
  decide

/-! ## Claim theorems -/

/-- C3: after mount, whenever the authoritative fragment differs from the
surface's current markup, the controller overwrites the surface if and
only if the surface is unfocused or the new fragment is empty while the
surface is non-empty (a hard clear always wins); in every other focused
case the surface is left untouched. -/
theorem C3_focus_preserving_sync (content current : String) (focused : Bool)
    (hdiff : content ≠ current) :
    ((syncSurface content current focused).1 = true
      ↔ focused = false ∨ (content = "" ∧ current ≠ ""))
    ∧ ((syncSurface content current focused).1 = true
      → (syncSurface content current focused).2 = content)
    ∧ ((syncSurface content current focused).1 = false
      → (syncSurface content current focused).2 = current) := by
  unfold syncSurface
  rw [if_pos hdiff]
  cases focused with
  | false => simp
  | true =>
    by_cases hc : content = "" ∧ current ≠ ""
    · simp [hc, hc.1]
    · simp [hc]

/-- C3 witness at a concrete focused hard clear. -/
theorem C3_focus_preserving_sync_witness :
    ((syncSurface "" "<p>x</p>" true).1 = true
      ↔ true = false ∨ (("" : String) = "" ∧ "<p>x</p>" ≠ ""))
    ∧ ((syncSurface "" "<p>x</p>" true).1 = true
      → (syncSurface "" "<p>x</p>" true).2 = "")
    ∧ ((syncSurface "" "<p>x</p>" true).1 = false
      → (syncSurface "" "<p>x</p>" true).2 = "<p>x</p>") :=
  C3_focus_preserving_sync "" "<p>x</p>" true (by decide)

/-- C7 counterexample: a non-collapsed selection whose wrap fails goes
directly to the coarse native step; the claimed extract-wrap-reinsert
intermediate step never occurs. -/
theorem C7_counterexample :
    applyFontSizeOutcome false true = FontSizeStep.coarseStep
    ∧ applyFontSizeOutcome false true ≠ FontSizeStep.extractWrapReinsert := by
  decide

/-- C7 (amended): applying a point size never lets the wrap exception
escape — the handler catches it — and on wrap failure the executor falls
back directly to the coarse native font-size step command; no
extract-wrap-reinsert intermediate step exists. -/
theorem C7_fontsize_fallback (collapsed surroundFails : Bool) :
    (applyFontSizeOutcome collapsed surroundFails
      = if collapsed then FontSizeStep.caretZeroWidth
        else if surroundFails then FontSizeStep.coarseStep
        else FontSizeStep.wrapSelection)
    ∧ applyFontSizeOutcome collapsed surroundFails
        ≠ FontSizeStep.extractWrapReinsert := by
  cases collapsed <;> cases surroundFails <;> exact (by decide)

/-- C8: inserting a variable registers it only when its key is unseen:
a colliding key leaves the registry completely unchanged, a fresh key
appends exactly one new entry carrying it, and key uniqueness is
preserved either way. -/
theorem C8_registry_insert (now key : String) (vars : List Variable)
    (hnodup : (vars.map Variable.key).Nodup) :
    ((∃ v ∈ vars, v.key = key) → handleAddVariable now vars key = vars)
    ∧ ((∀ v ∈ vars, v.key ≠ key) →
        handleAddVariable now vars key = vars ++ [newVariable now key]
        ∧ (newVariable now key).key = key)
    ∧ ((handleAddVariable now vars key).map Variable.key).Nodup := by
  unfold handleAddVariable
  cases hfind : vars.find? (fun v => v.key = key) with
  | some w =>
    have hw : w ∈ vars ∧ w.key = key := by
      refine ⟨List.mem_of_find?_eq_some hfind, ?_⟩
      have := List.find?_some hfind
      simpa using this
    exact ⟨fun _ => rfl, fun habs => absurd hw.2 (habs w hw.1), hnodup⟩
  | none =>
    have hmiss : ∀ v ∈ vars, v.key ≠ key := by
      intro v hv
      have := List.find?_eq_none.mp hfind v hv
      simpa using this
    refine ⟨fun ⟨v, hv, hkv⟩ => absurd hkv (hmiss v hv), fun _ => ⟨rfl, rfl⟩, ?_⟩
    rw [List.map_append, List.nodup_append]
    refine ⟨hnodup, by simp, ?_⟩
    intro a ha hb
    simp only [List.map_cons, List.map_nil, List.mem_singleton] at hb
    obtain ⟨v, hv, hva⟩ := List.mem_map.mp ha
    subst hva
    exact hmiss v hv (by simpa [newVariable] using hb)

/-- C8 witness at a concrete registry: colliding insert and fresh insert. -/
theorem C8_registry_insert_witness :
    ((∃ v ∈ [Variable.mk "v1" "nama" "Nama" "X"], v.key = "nama")
      → handleAddVariable "7" [Variable.mk "v1" "nama" "Nama" "X"] "nama"
        = [Variable.mk "v1" "nama" "Nama" "X"])
    ∧ ((∀ v ∈ [Variable.mk "v1" "nama" "Nama" "X"], v.key ≠ "nama") →
        handleAddVariable "7" [Variable.mk "v1" "nama" "Nama" "X"] "nama"
          = [Variable.mk "v1" "nama" "Nama" "X"] ++ [newVariable "7" "nama"]
        ∧ (newVariable "7" "nama").key = "nama")
    ∧ ((handleAddVariable "7" [Variable.mk "v1" "nama" "Nama" "X"] "nama").map
        Variable.key).Nodup :=
  C8_registry_insert "7" "nama" [Variable.mk "v1" "nama" "Nama" "X"] (by decide)

/-- C9 counterexample: the entered name "!!!" is truthy, every character
is stripped, and the empty key is inserted and registered; the empty
string does not match `[A-Za-z0-9_]+`. -/
theorem C9_counterexample :
    promptNewVariableKey (some "!!!") = some ""
    ∧ matchesKeyPat "" = false := by
  decide

/-- C9 (amended): every key produced on the explicit creation path
consists only of characters in `[A-Za-z0-9_]` (the entered name is
stripped to that class), and it is non-empty — matching `[A-Za-z0-9_]+` —
whenever the entered name contains at least one such character; a name
made solely of stripped characters yields the empty key. -/
theorem C9_cleaned_key (name key : String)
    (h : promptNewVariableKey (some name) = some key) :
    key.data.all isWordChar = true
    ∧ (name.data.any isWordChar = true → matchesKeyPat key = true) := by
  simp only [promptNewVariableKey] at h
  split at h
  · exact absurd h (by simp)
  · injection h with h
    subst h
    have hall : (cleanVarName name).data.all isWordChar = true := by
      rw [List.all_eq_true]
      intro c hc
      exact (List.mem_filter.mp (by simpa [cleanVarName] using hc)).2
    refine ⟨hall, fun hany => ?_⟩
    obtain ⟨c, hc, hwc⟩ := List.any_eq_true.mp hany
    have hne : cleanVarName name ≠ "" := by
      intro heq
      have hnil : name.data.filter isWordChar = [] := by
        have := congrArg String.data heq
        simpa [cleanVarName] using this
      rw [List.filter_eq_nil_iff] at hnil
      exact hnil c hc hwc
    simp only [matchesKeyPat, decide_eq_true_eq]
    exact ⟨hne, hall⟩

/-- C9 witness: a punctuated entered name yields a non-empty all-word
key. -/
theorem C9_cleaned_key_witness :
    ("nomorsurat" : String).data.all isWordChar = true
    ∧ (("nomor-surat!" : String).data.any isWordChar = true
      → matchesKeyPat "nomorsurat" = true) :=
  C9_cleaned_key "nomor-surat!" "nomorsurat" (by decide)

/-- C10: changing the active unit modifies only `unit` and the six
geometry fields; every other settings field is unchanged, and selecting
the already-active unit leaves the whole record unchanged. -/
theorem C10_unit_change_frame (s : LetterSettings) (u : LenUnit) :
    handleUnitChange s s.unit = s
    ∧ (handleUnitChange s u).pageSize = s.pageSize
    ∧ (handleUnitChange s u).globalFontFamily = s.globalFontFamily
    ∧ (handleUnitChange s u).headerFontFamily = s.headerFontFamily
    ∧ (handleUnitChange s u).contentFontFamily = s.contentFontFamily
    ∧ (handleUnitChange s u).attachmentFontFamily = s.attachmentFontFamily
    ∧ (handleUnitChange s u).fontSize = s.fontSize
    ∧ (handleUnitChange s u).showKop = s.showKop
    ∧ (handleUnitChange s u).headerContent = s.headerContent
    ∧ (handleUnitChange s u).headerLines = s.headerLines
    ∧ (handleUnitChange s u).logoUrl = s.logoUrl
    ∧ (handleUnitChange s u).logoAspectRatio = s.logoAspectRatio
    ∧ (handleUnitChange s u).rawHtmlContent = s.rawHtmlContent
    ∧ (handleUnitChange s u).showFooter = s.showFooter
    ∧ (handleUnitChange s u).footerContent = s.footerContent
    ∧ (handleUnitChange s u).hasAttachment = s.hasAttachment
    ∧ (handleUnitChange s u).attachmentShowKop = s.attachmentShowKop
    ∧ (handleUnitChange s u).attachmentContent = s.attachmentContent
    ∧ (handleUnitChange s u).«variables» = s.«variables»
    ∧ (handleUnitChange s u).showSignature = s.showSignature
    ∧ (handleUnitChange s u).signatureCity = s.signatureCity
    ∧ (handleUnitChange s u).signatures = s.signatures := by
  refine ⟨by unfold handleUnitChange; rw [if_pos rfl], ?_⟩
  unfold handleUnitChange
  split <;> simp

/-- Alignment classes of the single-signature preview block. -/
def singleAlignClass : SigAlign → String
  | .left => "items-start text-left"
  | .center => "items-center text-center"
  | .right => "items-end text-center"

/-- C2: the compiled signature block, in both the preview renderer and
the exported markup.  N = 1: one full-width block aligned per its own
align field, default right (and the export container aligns the same
way).  Even N > 1: every entry is a plain two-column grid cell — none
spans the full width.  Odd N > 1: entries before the last are plain grid
cells, and the last spans the full width, centered. -/
theorem C2_signature_grid (total idx : Nat) (align : Option SigAlign)
    (sig : Signature) (hidx : idx < total) :
    (total = 1 →
      previewWrapperClass total idx align
        = "text-center min-w-[200px] text-black col-span-2 flex flex-col "
          ++ singleAlignClass (align.getD SigAlign.right)
      ∧ exportBlockStyle total idx
        = "display: inline-block; text-align: center; min-width: 200px; vertical-align: top;"
      ∧ containerAlignStyle [sig]
        = "margin-top: 50px; width: 100%; text-align: "
          ++ alignStr (sig.align.getD SigAlign.right) ++ ";")
    ∧ (1 < total → total % 2 = 0 →
      occursIn "col-span-2" (previewWrapperClass total idx align) = false
      ∧ occursIn "width: 100%" (exportBlockStyle total idx) = false
      ∧ previewWrapperClass total idx align
          = "text-center min-w-[200px] text-black justify-self-center"
      ∧ exportBlockStyle total idx
          = "width: 50%; float: left; text-align: center; margin-bottom: 20px;")
    ∧ (1 < total → total % 2 = 1 → idx < total - 1 →
      occursIn "col-span-2" (previewWrapperClass total idx align) = false
      ∧ exportBlockStyle total idx
          = "width: 50%; float: left; text-align: center; margin-bottom: 20px;")
    ∧ (1 < total → total % 2 = 1 → idx = total - 1 →
      previewWrapperClass total idx align
          = "text-center min-w-[200px] text-black col-span-2 justify-self-center"
      ∧ occursIn "width: 100%" (exportBlockStyle total idx) = true
      ∧ occursIn "text-align: center" (exportBlockStyle total idx) = true
      ∧ exportBlockStyle total idx
          = "width: 100%; clear: both; float: none; display: block; text-align: center; margin-top: 20px;") := by
  refine ⟨?_, ?_, ?_, ?_⟩
  · intro h1
    subst h1
    refine ⟨?_, rfl, ?_⟩
    · rcases align with _ | a
      · rfl
      · cases a <;> rfl
    · rcases hs : sig.align with _ | a
      · simp [containerAlignStyle, hs]
      · cases a <;> simp [containerAlignStyle, hs]
  · intro h1 h2
    have hne1 : total ≠ 1 := by omega
    have hnotlastodd : ¬(total % 2 ≠ 0 ∧ idx = total - 1) := by omega
    simp only [previewWrapperClass, exportBlockStyle, if_neg hne1,
      if_neg hnotlastodd]
    exact ⟨by decide, by decide, by decide, by decide⟩
  · intro h1 h2 h3
    have hne1 : total ≠ 1 := by omega
    have hnotlast : ¬(total % 2 ≠ 0 ∧ idx = total - 1) := by omega
    simp only [previewWrapperClass, exportBlockStyle, if_neg hne1,
      if_neg hnotlast]
    exact ⟨by decide, by decide⟩
  · intro h1 h2 h3
    have hne1 : total ≠ 1 := by omega
    have hlast : total % 2 ≠ 0 ∧ idx = total - 1 := by omega
    simp only [previewWrapperClass, exportBlockStyle, if_neg hne1,
      if_pos hlast]
    exact ⟨by decide, by decide, by decide, by decide⟩

/-- C2 witness: three signatures — middle entry is a plain cell, the
last spans the full width in preview and export. -/
theorem C2_signature_grid_witness :
    (occursIn "col-span-2" (previewWrapperClass 3 1 none) = false
      ∧ exportBlockStyle 3 1
        = "width: 50%; float: left; text-align: center; margin-bottom: 20px;")
    ∧ (previewWrapperClass 3 2 none
        = "text-center min-w-[200px] text-black col-span-2 justify-self-center"
      ∧ occursIn "width: 100%" (exportBlockStyle 3 2) = true
      ∧ occursIn "text-align: center" (exportBlockStyle 3 2) = true
      ∧ exportBlockStyle 3 2
        = "width: 100%; clear: both; float: none; display: block; text-align: center; margin-top: 20px;") :=
  ⟨(C2_signature_grid 3 1 none
      (Signature.mk "s" "n" "t" SigType.wet none none) (by decide)).2.2.1
        (by decide) (by decide) (by decide),
   (C2_signature_grid 3 2 none
      (Signature.mk "s" "n" "t" SigType.wet none none) (by decide)).2.2.2
        (by decide) (by decide) (by decide)⟩

theorem roundTrip_four_fix (u v : LenUnit) :
    roundTrip u v (roundTrip u v 4) = roundTrip u v 4 := by
  cases u <;> cases v <;> norm_num [roundTrip, convertValue, toFixedQ]

theorem roundTrip_iterate_four (u v : LenUnit) (k : Nat) :
    (roundTrip u v)^[k + 1] 4 = roundTrip u v 4 := by
  induction k with
  | zero => simp
  | succ n ih => rw [Function.iterate_succ_apply', ih, roundTrip_four_fix]

/-- A concrete settings value used to instantiate witnesses. -/
def sampleSettings : LetterSettings :=
  { pageSize := .A4
    unit := .cm
    pageWidth := 21
    pageHeight := 297 / 10
    marginTop := 4
    marginRight := 3
    marginBottom := 3
    marginLeft := 4
    globalFontFamily := "\"Times New Roman\", serif"
    headerFontFamily := "\"Times New Roman\", serif"
    contentFontFamily := "\"Times New Roman\", serif"
    attachmentFontFamily := "\"Times New Roman\", serif"
    fontSize := 12
    showKop := true
    headerContent := "<p>HEADER</p>"
    headerLines := [HeaderLine.mk "l1" 3 .solid "#000000" 8 2,
                    HeaderLine.mk "l2" 1 .solid "#000000" 0 0]
    logoUrl := "logo.png"
    logoAspectRatio := "1:1"
    rawHtmlContent := "<p>BODY</p>"
    showFooter := true
    footerContent := "<p>FOOTER</p>"
    hasAttachment := true
    attachmentShowKop := true
    attachmentContent := "<p>ATTACH</p>"
    «variables» := [Variable.mk "v1" "nama_penerima" "Nama Penerima" "Bapak/Ibu"]
    showSignature := true
    signatureCity := "Bandung"
    signatures := [Signature.mk "s1" "Rektor Name" "Rektor" .wet (some "Mengetahui,") (some .right)] }

/-- C6: switching the active unit converts the six geometry fields
through millimeters as the common base, rounding to 2 decimals for mm/cm
and 3 for inch; converting 4.0 from any unit to another and back returns
4.0 within 0.01; and iterated round trips between two units never drift
beyond that rounding bound. -/
theorem C6_unit_conversion (s : LetterSettings) (u v : LenUnit) (k : Nat)
    (huv : u ≠ v) :
    (∀ val : ℚ, convertValue val u v
      = toFixedQ (decimalsOf v) (val * mmPer u / mmPer v))
    ∧ (s.unit ≠ v →
        (handleUnitChange s v).unit = v
        ∧ (handleUnitChange s v).pageWidth = convertValue s.pageWidth s.unit v
        ∧ (handleUnitChange s v).pageHeight = convertValue s.pageHeight s.unit v
        ∧ (handleUnitChange s v).marginTop = convertValue s.marginTop s.unit v
        ∧ (handleUnitChange s v).marginRight = convertValue s.marginRight s.unit v
        ∧ (handleUnitChange s v).marginBottom = convertValue s.marginBottom s.unit v
        ∧ (handleUnitChange s v).marginLeft = convertValue s.marginLeft s.unit v)
    ∧ |roundTrip u v 4 - 4| ≤ 1 / 100
    ∧ |(roundTrip u v)^[k] 4 - 4| ≤ 1 / 100 := by
  refine ⟨?_, ?_, ?_, ?_⟩
  · intro val
    cases u <;> cases v <;>
      (simp only [convertValue, mmPer, decimalsOf]; try (congr 1; ring))
  · intro hsv
    unfold handleUnitChange
    rw [if_neg (by intro h; exact hsv h)]
    exact ⟨rfl, rfl, rfl, rfl, rfl, rfl, rfl⟩
  · cases u <;> cases v <;>
      first
        | exact absurd rfl huv
        | norm_num [roundTrip, convertValue, toFixedQ, abs_le]
  · cases k with
    | zero => norm_num
    | succ n =>
      rw [roundTrip_iterate_four]
      cases u <;> cases v <;>
        first
          | exact absurd rfl huv
          | norm_num [roundTrip, convertValue, toFixedQ, abs_le]

/-- C6 witness: the cm/mm round trip of 4.0, once and iterated. -/
theorem C6_unit_conversion_witness :
    (handleUnitChange sampleSettings LenUnit.mm).unit = LenUnit.mm
    ∧ |roundTrip LenUnit.cm LenUnit.mm 4 - 4| ≤ 1 / 100
    ∧ |(roundTrip LenUnit.cm LenUnit.mm)^[3] 4 - 4| ≤ 1 / 100 :=
  ⟨((C6_unit_conversion sampleSettings LenUnit.cm LenUnit.mm 3
      (by decide)).2.1 (by decide)).1,
   (C6_unit_conversion sampleSettings LenUnit.cm LenUnit.mm 3 (by decide)).2.2.1,
   (C6_unit_conversion sampleSettings LenUnit.cm LenUnit.mm 3 (by decide)).2.2.2⟩

/-- C1: the preview substitution engine replaces every occurrence of a
registry token `{{ $key }}` — irregular internal whitespace tolerated —
with the highlighted stand-in span whose text is the variable's default
value, or its key when the default value is empty; markup containing no
token of any registered key is left untouched; and the export performs no
substitution at all — the body markup is passed verbatim into the
exported document. -/
theorem C1_substitution (v : Variable) (vars : List Variable)
    (html : String) (ws1 ws2 rest : List Char)
    (hkey : wfKey v.key) (hws1 : ws1.all jsWs) (hws2 : ws2.all jsWs) :
    (replTok v.key.data (standIn v).data (tokL ws1 v.key ws2 ++ rest)
      = (standIn v).data ++ replTok v.key.data (standIn v).data rest)
    ∧ (replTokStr v.key (standIn v) (String.mk (tokL ws1 v.key ws2 ++ rest))
      = standIn v ++ replTokStr v.key (standIn v) (String.mk rest))
    ∧ (standIn v
      = "<span class=\"bg-yellow-100 text-yellow-800 px-1 rounded border border-yellow-300\" title=\"$"
        ++ v.key ++ "\">"
        ++ (if v.defaultValue = "" then v.key else v.defaultValue)
        ++ "</span>")
    ∧ ((∀ u ∈ vars, hasTok u.key html = false) → replaceVariables vars html = html)
    ∧ (∀ st : LetterSettings, ∃ pre post : String,
        bladeBody st = pre ++ st.rawHtmlContent ++ post) := by
  refine ⟨replTok_tokL v.key (standIn v).data rest hws1 hws2, ?_, rfl,
    fun h => replaceVariables_no_tok h, ?_⟩
  · apply String.ext
    show replTok v.key.data (standIn v).data (tokL ws1 v.key ws2 ++ rest)
      = (standIn v ++ replTokStr v.key (standIn v) (String.mk rest)).data
    rw [replTok_tokL v.key (standIn v).data rest hws1 hws2]
    simp [replTokStr, String.data_append]
  · intro st
    refine ⟨footerSec st ++ headerSec st ++ "\n    <div class=\"content\">",
      "</div>\n" ++ sigSec st ++ attachSec st, ?_⟩
    simp only [bladeBody, contentSec, String.append_assoc]

/-- C1 witness: one registered variable, a single-space token, a tail. -/
theorem C1_substitution_witness :
    replTok "nama".data (standIn (Variable.mk "v2" "nama" "Nama" "Jane")).data
        (tokL [' '] "nama" [' '] ++ "!".data)
      = (standIn (Variable.mk "v2" "nama" "Nama" "Jane")).data
        ++ replTok "nama".data
            (standIn (Variable.mk "v2" "nama" "Nama" "Jane")).data "!".data :=
  (C1_substitution (Variable.mk "v2" "nama" "Nama" "Jane") [] "x" [' '] [' ']
    "!".data (by decide) (by decide) (by decide)).1

set_option maxRecDepth 40000 in
/-- C4 counterexample: with every block enabled, the assembled export
body places the footer block before the header block, so the order the
claim states — header, content, signature, footer, attachments — does
not hold. -/
theorem C4_counterexample :
    occursBefore ("class=\"footer\"".data) ("class=\"header-container\"".data)
        (bladeBody sampleSettings).data = true
    ∧ occursBefore ("class=\"header-container\"".data) ("class=\"footer\"".data)
        (bladeBody sampleSettings).data = false := by
  decide

set_option maxRecDepth 40000 in
/-- C4 (amended): the exported body is assembled in the fixed order
footer block first (it is position-fixed), then header block (logo +
header fragment + header-line stack), then the body content block, then
the signature block, and finally — gated on the attachment flag — a
page-break marker followed by the conditional repeated header and the
attachment block; every conditional block is wrapped in `@if` on its
settings flag. -/
theorem C4_export_body_order (s : LetterSettings) :
    bladeBody s
      = footerSec s ++ headerSec s ++ contentSec s ++ sigSec s ++ attachSec s
    ∧ footerSec s
      = "\n    @if(" ++ jsBool s.showFooter
        ++ ")\n    <div class=\"footer\">\n        " ++ s.footerContent
        ++ "\n    </div>\n    @endif\n"
    ∧ contentSec s
      = "\n    <div class=\"content\">" ++ s.rawHtmlContent ++ "</div>\n"
    ∧ (occursBefore ("class=\"footer\"".data) ("class=\"header-container\"".data)
          (bladeBody sampleSettings).data = true
      ∧ occursBefore ("class=\"header-container\"".data) ("<div class=\"content\">".data)
          (bladeBody sampleSettings).data = true
      ∧ occursBefore ("<div class=\"content\">".data) ("class=\"signature-container\"".data)
          (bladeBody sampleSettings).data = true
      ∧ occursBefore ("class=\"signature-container\"".data) ("class=\"page-break\"".data)
          (bladeBody sampleSettings).data = true
      ∧ occursBefore ("class=\"page-break\"".data) ("class=\"attachment-section\"".data)
          (bladeBody sampleSettings).data = true) := by
  exact ⟨rfl, rfl, rfl, by decide⟩

/-- The signature used for the city-divergence input. -/
def jakartaSig : Signature :=
  Signature.mk "s1" "Nama Penanda" "Jabatan" .wet (some "Hormat Kami,") (some .right)

set_option maxRecDepth 40000 in
/-- C5: with the configured city set to "Jakarta" the exported signature
block still prints the hard-coded "Bandung, {{ $tanggal }}" line and
never mentions Jakarta, while the preview prints the configured city;
the line sits on exactly the positionally last entry in both. -/
theorem C5_export_city_hardcoded :
    occursIn "Bandung, \x7b\x7b $tanggal \x7d\x7d" (signaturesHtml [jakartaSig]) = true
    ∧ occursIn "Jakarta" (signaturesHtml [jakartaSig]) = false
    ∧ occursIn "Jakarta, <span class=\"bg-yellow-100 px-1\">\x7b\x7b $tanggal \x7d\x7d</span>"
        (previewSigEntry "Jakarta" 1 0 jakartaSig) = true
    ∧ occursIn "Bandung" (previewSigEntry "Jakarta" 1 0 jakartaSig) = false
    ∧ occursIn "$tanggal" (sigBlockHtml 3 0 jakartaSig) = false
    ∧ occursIn "$tanggal" (sigBlockHtml 3 1 jakartaSig) = false
    ∧ occursIn "$tanggal" (sigBlockHtml 3 2 jakartaSig) = true
    ∧ occursIn "$tanggal" (previewSigEntry "Jakarta" 3 1 jakartaSig) = false
    ∧ occursIn "$tanggal" (previewSigEntry "Jakarta" 3 2 jakartaSig) = true := by
  decide
